import Mathlib

/-!
Verification of the Quickbots-AI chat request pipeline.

The development shallowly embeds the chat API route of the repository
(the Groq-backed route in the chat API file, together with the legacy
Ollama-backed route in `src/app/api/chat/[bot_id]/route.ts`), the RAG
retrieval helper (`src/lib/upstash/search/retrieval.ts`), and the
rate-limit configuration (`src/lib/upstash/rate-limit/rate-limit.ts`).

Strings are modelled as Lean `String`s and processed through explicit
`List Char` helpers so every definition is executable by the kernel.
JavaScript's `JSON.parse` is modelled by an executable fuel-based JSON
parser (`parseJson`); JavaScript string lengths count characters rather
than UTF-16 code units, which is equivalent on the inputs considered
here.
-/

/- ## Character and string helpers (models of the JS string operations used) -/

/-- Whitespace characters recognised by the model of `String.prototype.trim`
and of the regex class `\s` (space, tab, newline, carriage return). -/
def wsChar (c : Char) : Bool := c = ' ' || c = '\t' || c = '\n' || c = '\r'

/-- Model of `String.prototype.toLowerCase`. -/
def lowerStr (s : String) : String := String.mk (s.data.map Char.toLower)

/-- Model of `String.prototype.trim`. -/
def trimStr (s : String) : String :=
  String.mk (((s.data.dropWhile wsChar).reverse.dropWhile wsChar).reverse)

/-- Does the first list occur as a leading segment of the second? -/
def prefixChars : List Char → List Char → Bool
  | [], _ => true
  | _ :: _, [] => false
  | p :: ps, c :: cs => p = c && prefixChars ps cs

/-- Model of `String.prototype.startsWith`. -/
def startsWithStr (s pre : String) : Bool := prefixChars pre.data s.data

/-- Model of `String.prototype.endsWith`. -/
def endsWithStr (s suf : String) : Bool := prefixChars suf.data.reverse s.data.reverse

/-- Model of the JS `.length` of a string (character count). -/
def lenStr (s : String) : Nat := s.data.length

/-- Model of `String.prototype.slice(0, n)`. -/
def takeStr (s : String) (n : Nat) : String := String.mk (s.data.take n)

/-- Drop the first `n` characters of a string. -/
def dropStr (s : String) (n : Nat) : String := String.mk (s.data.drop n)

/-- Drop leading characters satisfying `p`. -/
def dropWhileStr (s : String) (p : Char → Bool) : String := String.mk (s.data.dropWhile p)

/-- Does `pat` occur as a contiguous run inside `cs`? -/
def hasInfixChars (pat : List Char) : List Char → Bool
  | [] => prefixChars pat []
  | c :: rest => prefixChars pat (c :: rest) || hasInfixChars pat rest

/-- Model of `String.prototype.includes`/`String.prototype.indexOf` checks
used for error-message inspection. -/
def containsStr (s pat : String) : Bool := hasInfixChars pat.data s.data

/- ## JSON values and a model of `JSON.parse` -/

/-- JSON values, the image of `JSON.parse`.  Numbers are modelled as
integers; the inputs relevant to the chat pipeline contracts carry no
fractional numerals. -/
inductive Json where
  | null : Json
  | bool (b : Bool) : Json
  | num (n : Int) : Json
  | str (s : String) : Json
  | arr (elems : List Json) : Json
  | obj (fields : List (String × Json)) : Json

/-- Last binding of a key in a parsed object.  `JSON.parse` keeps the last
occurrence of a duplicated key, so every field access in the embedding
goes through this lookup. -/
def Json.lookupLast (kvs : List (String × Json)) (k : String) : Option Json :=
  match kvs with
  | [] => none
  | (k2, v) :: rest =>
    match Json.lookupLast rest k with
    | some r => some r
    | none => if k2 = k then some v else none

/-- JS truthiness of a JSON value (`if (x)`): `null`, `false`, `0` and the
empty string are falsy, everything else is truthy. -/
def jsTruthy : Json → Bool
  | Json.null => false
  | Json.bool b => b
  | Json.num n => n != 0
  | Json.str s => s != ""
  | Json.arr _ => true
  | Json.obj _ => true

/-- JSON-text whitespace. -/
def jsonWs (c : Char) : Bool := c = ' ' || c = '\t' || c = '\n' || c = '\r'

/-- Hexadecimal digit value, for `\u` escapes. -/
def hexVal (c : Char) : Option Nat :=
  if '0' ≤ c ∧ c ≤ '9' then some (c.toNat - '0'.toNat)
  else if 'a' ≤ c ∧ c ≤ 'f' then some (c.toNat - 'a'.toNat + 10)
  else if 'A' ≤ c ∧ c ≤ 'F' then some (c.toNat - 'A'.toNat + 10)
  else none

/-- Parse the body of a JSON string literal (after the opening quote),
handling escape sequences; returns the decoded string and the rest. -/
def parseStrAux (acc : List Char) : List Char → Option (String × List Char)
  | [] => none
  | c :: rest =>
    if c = '"' then some (String.mk acc.reverse, rest)
    else if c = '\\' then
      match rest with
      | [] => none
      | e :: rest2 =>
        if e = '"' then parseStrAux ('"' :: acc) rest2
        else if e = '\\' then parseStrAux ('\\' :: acc) rest2
        else if e = '/' then parseStrAux ('/' :: acc) rest2
        else if e = 'n' then parseStrAux ('\n' :: acc) rest2
        else if e = 't' then parseStrAux ('\t' :: acc) rest2
        else if e = 'r' then parseStrAux ('\r' :: acc) rest2
        else if e = 'b' then parseStrAux (Char.ofNat 8 :: acc) rest2
        else if e = 'f' then parseStrAux (Char.ofNat 12 :: acc) rest2
        else if e = 'u' then
          match rest2 with
          | h1 :: h2 :: h3 :: h4 :: rest3 =>
            match hexVal h1, hexVal h2, hexVal h3, hexVal h4 with
            | some a, some b, some c3, some d =>
              parseStrAux (Char.ofNat (((a * 16 + b) * 16 + c3) * 16 + d) :: acc) rest3
            | _, _, _, _ => none
          | _ => none
        else none
    else parseStrAux (c :: acc) rest

/-- Digits of a nonnegative integer numeral. -/
def parseDigits (acc : Nat) : List Char → Nat × List Char
  | [] => (acc, [])
  | c :: rest =>
    if '0' ≤ c ∧ c ≤ '9' then parseDigits (acc * 10 + (c.toNat - '0'.toNat)) rest
    else (acc, c :: rest)

mutual

/-- Fuel-based JSON value parser: model of `JSON.parse` (one value,
returning the remainder of the input). -/
def parseValue : Nat → List Char → Option (Json × List Char)
  | 0, _ => none
  | _ + 1, [] => none
  | fuel + 1, c :: cs =>
    if c = '"' then
      match parseStrAux [] cs with
      | some (s, rest) => some (Json.str s, rest)
      | none => none
    else if c = '\x7b' then
      let cs2 := List.dropWhile jsonWs cs
      match cs2 with
      | '\x7d' :: rest => some (Json.obj [], rest)
      | _ => parseObjItems fuel cs2 []
    else if c = '[' then
      let cs2 := List.dropWhile jsonWs cs
      match cs2 with
      | ']' :: rest => some (Json.arr [], rest)
      | _ => parseArrItems fuel cs2 []
    else if prefixChars "true".data (c :: cs) then some (Json.bool true, (c :: cs).drop 4)
    else if prefixChars "false".data (c :: cs) then some (Json.bool false, (c :: cs).drop 5)
    else if prefixChars "null".data (c :: cs) then some (Json.null, (c :: cs).drop 4)
    else if c = '-' then
      match cs with
      | d :: _ =>
        if '0' ≤ d ∧ d ≤ '9' then
          let (n, rest) := parseDigits 0 cs
          some (Json.num (-(n : Int)), rest)
        else none
      | [] => none
    else if '0' ≤ c ∧ c ≤ '9' then
      let (n, rest) := parseDigits 0 (c :: cs)
      some (Json.num (n : Int), rest)
    else none

/-- Parse the members of a JSON object after the opening brace (with at
least one member pending). -/
def parseObjItems : Nat → List Char → List (String × Json) → Option (Json × List Char)
  | 0, _, _ => none
  | fuel + 1, cs, acc =>
    match cs with
    | '"' :: cs2 =>
      match parseStrAux [] cs2 with
      | some (k, rest) =>
        match List.dropWhile jsonWs rest with
        | ':' :: rest2 =>
          match parseValue fuel (List.dropWhile jsonWs rest2) with
          | some (v, rest3) =>
            match List.dropWhile jsonWs rest3 with
            | ',' :: rest4 => parseObjItems fuel (List.dropWhile jsonWs rest4) (acc ++ [(k, v)])
            | '\x7d' :: rest4 => some (Json.obj (acc ++ [(k, v)]), rest4)
            | _ => none
          | none => none
        | _ => none
      | none => none
    | _ => none

/-- Parse the elements of a JSON array after the opening bracket (with at
least one element pending). -/
def parseArrItems : Nat → List Char → List Json → Option (Json × List Char)
  | 0, _, _ => none
  | fuel + 1, cs, acc =>
    match parseValue fuel cs with
    | some (v, rest) =>
      match List.dropWhile jsonWs rest with
      | ',' :: rest2 => parseArrItems fuel (List.dropWhile jsonWs rest2) (acc ++ [v])
      | ']' :: rest2 => some (Json.arr (acc ++ [v]), rest2)
      | _ => none
    | none => none

end

/-- Model of `JSON.parse`: parse a complete JSON text (surrounding
whitespace allowed), returning `none` where `JSON.parse` throws. -/
def parseJson (s : String) : Option Json :=
  match parseValue (2 * s.data.length + 2) (List.dropWhile jsonWs s.data) with
  | some (j, rest) => if List.dropWhile jsonWs rest = [] then some j else none
  | none => none

/- ## Out-of-scope short-circuit (chat API route, `isObviousOutOfScope`) -/

/-- The anchored alternative words of the out-of-scope regexes in the chat
route (greeting, gratitude, farewell, acknowledgment, yes/no patterns);
each may carry a single trailing `!` or `.`. -/
def oosWords : List String :=
  ["hi", "hello", "hey", "sup", "yo", "greetings",
   "good morning", "good afternoon", "good evening",
   "thank", "thanks", "thank you", "thx", "ty", "appreciate it",
   "bye", "goodbye", "see ya", "later", "cya", "farewell",
   "ok", "okay", "k", "alright", "sure", "got it", "understood",
   "yes", "no", "yep", "nope", "yeah", "nah"]

/-- Does the lower-cased trimmed message match one of the anchored word
patterns `^(w)[!.]?$`? -/
def matchesOosWord (m : String) : Bool :=
  oosWords.any (fun w => m = w || m = w ++ "!" || m = w ++ ".")

/-- The pattern `/^[^a-z]*$/i`: the message contains no ASCII letters. -/
def noLettersStr (m : String) : Bool :=
  m.data.all (fun c => !(('a' ≤ c && c ≤ 'z') || ('A' ≤ c && c ≤ 'Z')))

/-- `isObviousOutOfScope` from the chat API route: lower-case and trim the
message; messages shorter than 3 characters, anchored conversational
patterns, and messages with no letters are out of scope. -/
def isObviousOutOfScope (message : String) : Bool :=
  let m := trimStr (lowerStr message)
  if lenStr m < 3 then true
  else matchesOosWord m || noLettersStr m

/- ## Input sanitizer (gibberish detector) -/

/-- Does some character repeat at least `k` times consecutively? -/
def hasRepeatRun (k : Nat) : List Char → Bool
  | [] => false
  | c :: rest => repeatRunGo k c 1 rest
where
  repeatRunGo (k : Nat) (c : Char) (cnt : Nat) : List Char → Bool
    | [] => k ≤ cnt
    | d :: rest => if d = c then (k ≤ cnt + 1) || repeatRunGo k c (cnt + 1) rest
                   else repeatRunGo k d 1 rest

/-- Does the list contain two consecutive letters? -/
def hasLetterRun2 : List Char → Bool
  | a :: b :: rest => (a.isAlpha && b.isAlpha) || hasLetterRun2 (b :: rest)
  | _ => false

/-- Modelled from the spec: the gibberish detector module
`@/lib/validation/gibberish-detector` is imported by both chat routes but
its source is not under `src/`; section 4.1 of the spec specifies
`isGibberish`.  A message is flagged when its length is within a
meaningful threshold but symbol density exceeds 60% of characters, or
alphanumeric density is below 30%, or a character repeats 6 or more times
consecutively, or no run of 2 or more consecutive letters exists. -/
def isObviousGibberish (message : String) : Bool :=
  let cs := message.data
  let n := cs.length
  let alnum := (cs.filter (fun c => c.isAlphanum)).length
  let symbols := (cs.filter (fun c => !(c.isAlphanum || wsChar c))).length
  (5 ≤ n && symbols * 5 > n * 3) ||
  (alnum * 10 < n * 3) ||
  hasRepeatRun 6 cs ||
  !(hasLetterRun2 cs)

/- ## RAG context retrieval (`src/lib/upstash/search/retrieval.ts`) -/

/-- One hit returned by the Upstash Search backend: `text?` holds
`hit.content.text` when that field is a string. -/
structure SearchHit where
  text? : Option String

/-- The outcome of the external search backend as seen by
`retrieveContext`: `none` models `getSearchClient()` returning `null`
(search not configured); `some (Except.error ())` models `index.search`
throwing; `some (Except.ok hits)` models a successful search (the call
passes `limit: 3`, so the backend contract bounds `hits` by 3). -/
def SearchOutcome := Option (Except Unit (List SearchHit))

/-- `retrieveContext` from `retrieval.ts`: on a missing client or a thrown
error it returns the empty list; otherwise it trims each hit text that is
a string and keeps the non-empty ones. -/
def retrieveContext : SearchOutcome → List String
  | none => []
  | some (Except.error _) => []
  | some (Except.ok hits) =>
    (hits.filterMap (fun h => h.text?.map trimStr)).filter (fun s => s ≠ "")

/- ## Rate limiting (`src/lib/upstash/rate-limit/rate-limit.ts`) -/

/-- The request count configured for `chatRateLimit` in
`src/lib/upstash/rate-limit/rate-limit.ts`: `Ratelimit.slidingWindow(10, "1 m")`.
The doc comment directly above that definition says
"20 requests per minute per session", as does the chat route's comment. -/
def chatRateLimitRequests : Nat := 10

/-- The request count configured for `chatRateLimit` in the variant
rate-limit module (unnamed source file):
`Ratelimit.slidingWindow(20, "1 m")`. -/
def chatRateLimitRequestsVariant : Nat := 20

/-- The window of `chatRateLimit`, in seconds (`"1 m"`). -/
def chatRateLimitWindow : Nat := 60

/-- Is an earlier admission at time `u` still inside the sliding window of
length `w` ending at time `t` (the interval `(t - w, t]`)? -/
def inWindow (w t u : Nat) : Bool := t < u + w

/-- Admitted requests counted by the sliding window at time `t`. -/
def swCount (w : Nat) (admitted : List Nat) (t : Nat) : Nat :=
  (admitted.filter (inWindow w t)).length

/-- Modelled from the spec: the `@upstash/ratelimit` sliding-window
limiter is an external collaborator whose source is not in the
repository; the spec describes it as "an admission-control scheme
counting requests in a continuously moving time interval".  Given the
configured count `l` and window `w`, process requests (time-ordered) and
return each decision: a request is admitted when fewer than `l` requests
were admitted inside the moving window. -/
def swRun (l w : Nat) : List Nat → List Nat → List Bool
  | _, [] => []
  | admitted, t :: ts =>
    let ok := swCount w admitted t < l
    ok :: swRun l w (if ok then admitted ++ [t] else admitted) ts

/-- The decision record returned by `chatRateLimit.limit`, as consumed by
the chat route (`success`, `remaining`, `reset`). -/
structure RateDecision where
  success : Bool
  remaining : Nat
  reset : Nat

/- ## LLM response schema and repair (chat API route) -/

/-- The validated LLM response record (`z.infer` of `LLMResponseSchema`). -/
structure LLMResult where
  answer : String
  suggestedQuestions : List String
deriving DecidableEq

/-- Are all elements JSON strings?  Returns them in order if so. -/
def strListOf : List Json → Option (List String)
  | [] => some []
  | Json.str s :: rest => (strListOf rest).map (fun ss => s :: ss)
  | _ => none

/-- `LLMResponseSchema.parse` of the Groq chat route:
`answer` must be a string, `suggestedQuestions` an array of 0 to 3
strings each ending in `?` (`z.array(z.string().refine(q => q.endsWith("?"))).min(0).max(3)`);
unknown keys are stripped, a failed parse throws (modelled as `none`). -/
def zodValidate (j : Json) : Option LLMResult :=
  match j with
  | Json.obj kvs =>
    match Json.lookupLast kvs "answer", Json.lookupLast kvs "suggestedQuestions" with
    | some (Json.str a), some (Json.arr qs) =>
      match strListOf qs with
      | some ss =>
        if ss.all (fun q => endsWithStr q "?") ∧ ss.length ≤ 3 then
          some ⟨a, ss⟩
        else none
      | none => none
    | _, _ => none
  | _ => none

/-- First replacement `/^```json\s*/i` applied to the trimmed content. -/
def stripFenceJson (s : String) : String :=
  if lowerStr (takeStr s 7) = "```json" then dropWhileStr (dropStr s 7) wsChar else s

/-- Second replacement `/^```\s*/i`. -/
def stripFenceBare (s : String) : String :=
  if takeStr s 3 = "```" then dropWhileStr (dropStr s 3) wsChar else s

/-- Trailing replacement `/\s*```$/i`: remove a final fence and the
whitespace run directly before it. -/
def stripFenceEnd (s : String) : String :=
  if prefixChars "```".data.reverse s.data.reverse then
    String.mk (((s.data.reverse.drop 3).dropWhile wsChar).reverse)
  else s

/-- The content cleaning of the Groq route before the first `JSON.parse`
attempt: trim, strip a leading ```json or ``` fence, strip a trailing
fence, trim again. -/
def stripFences (content : String) : String :=
  trimStr (stripFenceEnd (stripFenceBare (stripFenceJson (trimStr content))))

/-- The fallback extraction regex `/\{[\s\S]*\}/`: the span from the first
opening brace to the last closing brace, when they exist in that order. -/
def extractJsonSpan (s : String) : Option String :=
  let cs := s.data
  match cs.findIdx? (fun c => c = '\x7b'), cs.reverse.findIdx? (fun c => c = '\x7d') with
  | some i, some jr =>
    let j := cs.length - 1 - jr
    if i ≤ j then some (String.mk ((cs.drop i).take (j - i + 1))) else none
  | _, _ => none

/-- `LLMResponseSchema.parse` wrapped as the route's try block sees it: a
zod failure throws inside the same `try` as the Groq call (its `ZodError`
message never contains the Groq JSON-failure markers). -/
def validateStage (parsed : Json) : Except String LLMResult :=
  match zodValidate parsed with
  | some r => Except.ok r
  | none => Except.error "ZodError: invalid response structure"

/-- The parse-and-validate section of the Groq route's try block: clean
the content and `JSON.parse` it; on failure extract the first-to-last
brace span of the raw content and parse that; then validate with
`LLMResponseSchema`.  Thrown errors carry the route's literal messages. -/
def runLLMParse (content : String) : Except String LLMResult :=
  match parseJson (stripFences content) with
  | some parsed => validateStage parsed
  | none =>
    match extractJsonSpan content with
    | some span =>
      match parseJson span with
      | some parsed => validateStage parsed
      | none => Except.error "Invalid JSON response from Groq - failed to parse extracted JSON"
    | none => Except.error "Invalid JSON response from Groq - no JSON object found"

/-- The whole model-invocation try block: the Groq call either throws
(`Except.error` with the provider or timeout message, e.g. "LLM timeout"
after the 50s race) or returns the completion content, which is then
parsed and validated. -/
def llmStage (outcome : Except String String) : Except String LLMResult :=
  outcome.bind runLLMParse

/-- The final response record after the nested-JSON cleanup; the cleanup
can put an arbitrary parsed array into `suggestedQuestions`, so the field
is a list of JSON values (`NextResponse.json` serialises whatever is
there). -/
structure ChatAnswer where
  answer : String
  suggestedQuestions : List Json

/-- The final-cleanup section of the Groq route: when the validated
`answer`, trimmed, starts with `{` and ends with `}` and parses as JSON,
hoist a string `answer` field (trimmed) and an array
`suggestedQuestions` field out of it; otherwise keep the validated
record.  The hoisted fields are not re-validated. -/
def finalCleanup (r : LLMResult) : ChatAnswer :=
  let t := trimStr r.answer
  if startsWithStr t "\x7b" && endsWithStr t "\x7d" then
    match parseJson t with
    | some (Json.obj kvs) =>
      let a :=
        match Json.lookupLast kvs "answer" with
        | some (Json.str s) => trimStr s
        | _ => r.answer
      let sq :=
        match Json.lookupLast kvs "suggestedQuestions" with
        | some (Json.arr xs) => xs
        | _ => r.suggestedQuestions.map Json.str
      ⟨a, sq⟩
    | _ => ⟨r.answer, r.suggestedQuestions.map Json.str⟩
  else ⟨r.answer, r.suggestedQuestions.map Json.str⟩

/- ## The Groq chat route (POST handler) -/

/-- The slice of `BotProfile.config` the chat route reads. -/
structure BotConfig where
  fallback_message : Option String

/-- The bot profile loaded by `getBotProfile`. -/
structure BotProfile where
  config : BotConfig

/-- One message of the request's `chat_history`. -/
inductive ChatRole | user | assistant
deriving DecidableEq

structure ChatMsg where
  role : ChatRole
  content : String

/-- The body accepted by `RequestSchema` (message non-empty, history of at
most 20 entries); the pipeline consumes the parse outcome, so `ChatReq`
holds an `Option ChatBody`. -/
structure ChatBody where
  message : String
  chat_history : List ChatMsg

/-- The per-request inputs of the POST handler: the route parameter, the
`x-session-id` header, the `authorization` header, and the body parse
outcome (`none` models a body rejected by `req.json()` or
`RequestSchema.parse`, both of which throw into the global catch). -/
structure ChatReq where
  bot_id : String
  sessionId : Option String
  authHeader : Option String
  body : Option ChatBody

/-- The external collaborators of one request: the rate-limit decision,
the API-key store, the bot-profile store, the RAG retrieval outcome
(`Except.error` models `retrieveContext` throwing, caught by the route),
and the Groq invocation outcome. -/
structure ChatEnv where
  rateDecision : RateDecision
  apiKeyOwner : String → Option String
  bot : Option BotProfile
  rag : Except Unit (List String)
  llm : Except String String

/-- The generic default fallback text of the chat route. -/
def defaultFallback : String :=
  "I'm not able to help with that. Please contact support for assistance."

/-- `bot.config.fallback_message?.trim() || default`: the trimmed
configured fallback, or the generic default when the field is unset or
blank. -/
def effectiveFallback (bot : BotProfile) : String :=
  match bot.config.fallback_message with
  | some s => if trimStr s = "" then defaultFallback else trimStr s
  | none => defaultFallback

/-- The session-id format check `/^[a-zA-Z0-9_-]{8,64}$/`. -/
def validSessionId (s : String) : Bool :=
  8 ≤ lenStr s && lenStr s ≤ 64 &&
    s.data.all (fun c => c.isAlphanum || c = '_' || c = '-')

/-- Was a bearer credential presented (`auth.toLowerCase().startsWith("bearer ")`
on the header defaulted to the empty string)?  Exactly when this holds
the route consults the credential store. -/
def usedCredentialStore (req : ChatReq) : Bool :=
  startsWithStr (lowerStr (req.authHeader.getD "")) "bearer "

/-- The token extracted by `auth.replace(/^bearer\s+/i, "").trim()`. -/
def bearerTokenOf (a : String) : String :=
  trimStr (dropWhileStr (dropStr a 6) wsChar)

/-- Does the optional API-key check reject the request?  A presented
bearer token must resolve in the key store to the requested bot. -/
def authRejected (owner : String → Option String) (req : ChatReq) : Bool :=
  usedCredentialStore req &&
    (match owner (bearerTokenOf (req.authHeader.getD "")) with
     | some b => b != req.bot_id
     | none => true)

/-- The effective RAG context of the route: the retrieved list, or the
empty list when retrieval threw (the route catches and degrades). -/
def effectiveRag (env : ChatEnv) : List String :=
  match env.rag with
  | Except.ok l => l
  | Except.error _ => []

/-- `MAX_CONTEXT_CHARS` of the chat route. -/
def MAX_CONTEXT_CHARS : Nat := 1500

/-- The truncation applied to each retrieved chunk before it is folded
into the system prompt (`c.slice(0, 1500)` when longer). -/
def safeRag (ctx : List String) : List String :=
  ctx.map (fun c => if lenStr c > MAX_CONTEXT_CHARS then takeStr c MAX_CONTEXT_CHARS else c)

/-- An HTTP-level reply of the route: an error body or a chat body. -/
inductive RespBody where
  | fail (msg : String)
  | chat (answer : String) (suggestedQuestions : List Json)

/-- A reply with its status and the rate-limit headers when present. -/
structure HttpResponse where
  status : Nat
  body : RespBody
  rateHeaders : Option (Nat × Nat)

/-- One `logChat` call of the Groq route (role and message). -/
structure LogEntry where
  role : String
  message : String
deriving DecidableEq

/-- Observable side effects of one request: whether the Groq model was
invoked, whether `lookupApiKey` was consulted, and the truncated context
folded into the system prompt. -/
structure ChatTrace where
  modelInvoked : Bool
  credentialChecked : Bool
  promptContext : List String

/-- Response, attempted log writes, and trace of one request. -/
structure CoreOut where
  resp : HttpResponse
  attempts : List LogEntry
  trace : ChatTrace

/-- The POST handler of the Groq chat route as a function of the request
and its collaborators, following the route's order: params, session-id
presence and format, rate limit, body, optional API key, gibberish
filter, bot profile, RAG, out-of-scope short-circuit, model invocation
with parse/validate, error policy, nested-JSON cleanup, logging,
response.  Throws of `ParamsSchema.parse` / `RequestSchema.parse` land in
the global catch (500 "Internal server error"). -/
def POSTcore (env : ChatEnv) (req : ChatReq) : CoreOut :=
  if req.bot_id = "" then
    ⟨⟨500, RespBody.fail "Internal server error", none⟩, [], ⟨false, false, []⟩⟩
  else
    match req.sessionId with
    | none => ⟨⟨400, RespBody.fail "Missing x-session-id header", none⟩, [], ⟨false, false, []⟩⟩
    | some sid =>
      if validSessionId sid then
        if env.rateDecision.success then
          match req.body with
          | none => ⟨⟨500, RespBody.fail "Internal server error", none⟩, [], ⟨false, false, []⟩⟩
          | some body =>
            if authRejected env.apiKeyOwner req then
              ⟨⟨401, RespBody.fail "Invalid API key", none⟩, [],
                ⟨false, usedCredentialStore req, []⟩⟩
            else if isObviousGibberish body.message then
              ⟨⟨400, RespBody.fail "Message not understandable. Please rephrase.", none⟩, [],
                ⟨false, usedCredentialStore req, []⟩⟩
            else
              match env.bot with
              | none => ⟨⟨404, RespBody.fail "Bot not found", none⟩, [],
                  ⟨false, usedCredentialStore req, []⟩⟩
              | some bot =>
                let ragContext := effectiveRag env
                if ragContext.isEmpty && isObviousOutOfScope body.message then
                  ⟨⟨200, RespBody.chat (effectiveFallback bot) [], none⟩, [],
                    ⟨false, usedCredentialStore req, []⟩⟩
                else
                  let ctx := safeRag ragContext
                  match llmStage env.llm with
                  | Except.error e =>
                    if containsStr e "json_validate_failed" ||
                        containsStr e "Failed to generate JSON" then
                      ⟨⟨200, RespBody.chat (effectiveFallback bot) [], none⟩, [],
                        ⟨true, usedCredentialStore req, ctx⟩⟩
                    else
                      ⟨⟨500, RespBody.fail "Model invocation failed", none⟩, [],
                        ⟨true, usedCredentialStore req, ctx⟩⟩
                  | Except.ok r =>
                    let final := finalCleanup r
                    ⟨⟨200, RespBody.chat final.answer final.suggestedQuestions, none⟩,
                      [⟨"assistant", final.answer⟩],
                      ⟨true, usedCredentialStore req, ctx⟩⟩
        else
          ⟨⟨429, RespBody.fail "Too many requests. Please slow down.",
              some (env.rateDecision.remaining, env.rateDecision.reset)⟩, [],
            ⟨false, false, []⟩⟩
      else
        ⟨⟨400, RespBody.fail "Invalid session id", none⟩, [], ⟨false, false, []⟩⟩

/-- Outcome of one request: the reply, the log entries actually appended
to the external store, and the trace. -/
structure ChatOutcome where
  resp : HttpResponse
  stored : List LogEntry
  trace : ChatTrace

/-- The POST handler including the best-effort logging boundary: each
`logChat(...)` is awaited with `.catch`, so when the logger fails
(`logWriteFails`) nothing is appended and everything else is unchanged. -/
def POST (env : ChatEnv) (logWriteFails : Bool) (req : ChatReq) : ChatOutcome :=
  ⟨(POSTcore env req).resp,
   if logWriteFails then [] else (POSTcore env req).attempts,
   (POSTcore env req).trace⟩

/- ## The legacy Ollama chat route (`src/app/api/chat/[bot_id]/route.ts`) -/

/-- The final record of the legacy route; its recovery path can place any
truthy JSON value into `answer` (`answer: parsed.answer` without a type
check), so `answer` is a JSON value. -/
structure LegacyResult where
  answer : Json
  suggestedQuestions : List String

/-- The catch branch of the legacy route's `chain.invoke`: extract the
first-to-last brace span of `parseError.llmOutput`, parse it, and accept
a truthy `answer` together with an array `suggestedQuestions` (keeping
the string elements that end in `?`, at most 3); otherwise the trimmed
raw output becomes the answer with no questions. -/
def legacyRecover (raw : String) : LegacyResult :=
  let fallback : LegacyResult := ⟨Json.str (trimStr raw), []⟩
  match extractJsonSpan raw with
  | some span =>
    match parseJson span with
    | some (Json.obj kvs) =>
      match Json.lookupLast kvs "answer", Json.lookupLast kvs "suggestedQuestions" with
      | some a, some (Json.arr xs) =>
        if jsTruthy a then
          ⟨a, (xs.filterMap (fun j =>
              match j with
              | Json.str s => if endsWithStr s "?" then some s else none
              | _ => none)).take 3⟩
        else fallback
      | _, _ => fallback
    | _ => fallback
  | none => fallback

/-- One `logChat` call of the legacy route (the logged message can be a
non-string JSON value on the recovery path). -/
structure LegacyLogEntry where
  role : String
  message : Json

/-- A reply of the legacy route. -/
inductive LegacyBody where
  | fail (msg : String)
  | chat (answer : Json) (suggestedQuestions : List String)

structure LegacyResponse where
  status : Nat
  body : LegacyBody

/-- The collaborators of the legacy route: the API-key store, the bot
store, and the langchain `chain.invoke` outcome (`Sum.inl` a result
already validated by the structured-output parser, `Sum.inr` a throw
carrying `parseError.llmOutput`). -/
structure LegacyEnv where
  apiKeyOwner : String → Option String
  bot : Option BotProfile
  chain : Sum LLMResult String

structure LegacyCoreOut where
  resp : LegacyResponse
  attempts : List LegacyLogEntry
  modelInvoked : Bool
  credentialChecked : Bool

/-- The result record the legacy route ends up with: the chain's parsed
output on success, the recovery of `parseError.llmOutput` on a throw. -/
def legacyResult (chain : Sum LLMResult String) : LegacyResult :=
  match chain with
  | Sum.inl r => ⟨Json.str r.answer, r.suggestedQuestions⟩
  | Sum.inr raw => legacyRecover raw

/-- The POST handler of the legacy route: params, session-id presence
(no format check), body, optional API key, gibberish filter (which logs
the user message best-effort before rejecting), bot profile, model
invocation with recovery, then a user log entry, an assistant log entry
and the reply.  There is no rate limiting, no RAG and no nested-JSON
cleanup in this route. -/
def legacyPOSTcore (env : LegacyEnv) (req : ChatReq) : LegacyCoreOut :=
  if req.bot_id = "" then
    ⟨⟨500, LegacyBody.fail "Internal server error"⟩, [], false, false⟩
  else
    match req.sessionId with
    | none => ⟨⟨400, LegacyBody.fail "x-session-id header required"⟩, [], false, false⟩
    | some _ =>
      match req.body with
      | none => ⟨⟨500, LegacyBody.fail "Internal server error"⟩, [], false, false⟩
      | some body =>
        if authRejected env.apiKeyOwner req then
          ⟨⟨401, LegacyBody.fail "Invalid API key"⟩, [], false, usedCredentialStore req⟩
        else if isObviousGibberish body.message then
          ⟨⟨400, LegacyBody.fail "Message not understandable. Please rephrase."⟩,
            [⟨"user", Json.str body.message⟩], false, usedCredentialStore req⟩
        else
          match env.bot with
          | none => ⟨⟨404, LegacyBody.fail "Bot not found"⟩, [], false, usedCredentialStore req⟩
          | some _ =>
            let result := legacyResult env.chain
            ⟨⟨200, LegacyBody.chat result.answer result.suggestedQuestions⟩,
              [⟨"user", Json.str body.message⟩, ⟨"assistant", result.answer⟩],
              true, usedCredentialStore req⟩

structure LegacyOutcome where
  resp : LegacyResponse
  stored : List LegacyLogEntry
  modelInvoked : Bool
  credentialChecked : Bool

/-- The legacy POST handler with its best-effort logging boundary (each
`logChat` is awaited with `.catch(() => {})`). -/
def legacyPOST (env : LegacyEnv) (logWriteFails : Bool) (req : ChatReq) : LegacyOutcome :=
  ⟨(legacyPOSTcore env req).resp,
   if logWriteFails then [] else (legacyPOSTcore env req).attempts,
   (legacyPOSTcore env req).modelInvoked,
   (legacyPOSTcore env req).credentialChecked⟩

/- ## The spec's ChatTurnResult output contract, stated from the spec -/

/-- Stated from the spec (not from the source), for comparison against
the route's behaviour: a 200 chat reply satisfies the output schema when
`answer` is a non-empty string and `suggestedQuestions` has at most 3
elements, each a string ending in `?`. -/
def specChatResultOk (resp : HttpResponse) : Bool :=
  match resp.body with
  | RespBody.chat a sq =>
    a ≠ "" && sq.length ≤ 3 &&
      sq.all (fun j => match j with
        | Json.str s => endsWithStr s "?"
        | _ => false)
  | RespBody.fail _ => true

/- ## Concrete instances for counterexamples and witnesses -/

/-- A completion whose outer record passes `LLMResponseSchema` but whose
`answer` is a double-encoded object with an empty inner answer and four
inner suggestions that are not questions. -/
def badContentC1 : String :=
  "\x7b\"answer\":\"\x7b\\\"answer\\\":\\\"\\\",\\\"suggestedQuestions\\\":[\\\"a\\\",\\\"b\\\",\\\"c\\\",\\\"d\\\"]\x7d\",\"suggestedQuestions\":[]\x7d"

def envC1 : ChatEnv :=
  ⟨⟨true, 19, 1000⟩, fun _ => none, some ⟨⟨none⟩⟩, Except.ok [], Except.ok badContentC1⟩

def reqC1 : ChatReq :=
  ⟨"bot_1", some "sess_0001", none, some ⟨"What are your opening hours", []⟩⟩

/-- A well-formed validated response object, for the amended-claim witness. -/
def jC1w : Json :=
  Json.obj [("answer", Json.str "Hello"), ("suggestedQuestions", Json.arr [Json.str "More info?"])]

def rC1w : LLMResult := ⟨"Hello", ["More info?"]⟩

def botC2 : BotProfile := ⟨⟨some " Please ask about our products. "⟩⟩

def envC2 : ChatEnv :=
  ⟨⟨true, 19, 1000⟩, fun _ => none, some botC2, Except.ok [], Except.error "unreached"⟩

def reqC2 : ChatReq := ⟨"bot_1", some "sess_0001", none, some ⟨"hi", []⟩⟩

def botC4 : BotProfile := ⟨⟨some "Ask our sales team."⟩⟩

/-- The model invocation loses the 50-second race: the rejection carries
the message "LLM timeout". -/
def envC4 : ChatEnv :=
  ⟨⟨true, 19, 1000⟩, fun _ => none, some botC4, Except.ok [], Except.error "LLM timeout"⟩

def reqC4 : ChatReq := ⟨"bot_1", some "sess_0001", none, some ⟨"When do you open", []⟩⟩

def hitsC5 : List SearchHit := [⟨some "  hello  "⟩, ⟨none⟩, ⟨some "   "⟩]

def envC6 : ChatEnv :=
  ⟨⟨true, 19, 1000⟩, fun _ => none, some botC2, Except.ok [], Except.error "unreached"⟩

def reqC6 : ChatReq := ⟨"bot_1", some "sess_0001", none, some ⟨"!!!!!!!", []⟩⟩

def lenvC6 : LegacyEnv := ⟨fun _ => none, some botC2, Sum.inr ""⟩

/-- Scenario E: the validated `answer` is itself an encoded
`{answer, suggestedQuestions}` object. -/
def rC7 : LLMResult := ⟨"\x7b\"answer\":\"X\",\"suggestedQuestions\":[]\x7d", ["Y?"]⟩

def kvsC7 : List (String × Json) := [("answer", Json.str "X"), ("suggestedQuestions", Json.arr [])]

def goodContentC8 : String :=
  "\x7b\"answer\":\"We open at 9.\",\"suggestedQuestions\":[\"More info?\"]\x7d"

def envC8 : ChatEnv :=
  ⟨⟨true, 19, 1000⟩, fun _ => none, some ⟨⟨none⟩⟩, Except.ok [], Except.ok goodContentC8⟩

def reqC8 : ChatReq := ⟨"bot_1", some "sess_0001", none, some ⟨"When do you open", []⟩⟩

def lenvC8 : LegacyEnv := ⟨fun _ => none, some botC2, Sum.inl ⟨"Here.", ["Q1?", "Q2?"]⟩⟩

/-- An over-limit rate decision together with a malformed body and an
invalid bearer credential. -/
def envC10 : ChatEnv :=
  ⟨⟨false, 0, 1234⟩, fun _ => none, some botC2, Except.ok [], Except.error "unreached"⟩

def reqC10 : ChatReq := ⟨"bot_1", some "sess_0001", some "Bearer badtoken", none⟩

/- # Theorems settling the claims -/

/-- Claim C1, counterexample: on the nested-JSON cleanup path a success
turn can return an empty `answer` and four suggestions that are not
questions.  With `badContentC1` the outer record passes
`LLMResponseSchema`, the cleanup then hoists the inner empty answer and
the inner four-element array without re-validation, and the 200 reply
violates the claimed output schema (`answer` non-empty, at most 3
suggestions each ending in `?`). -/
theorem c1_output_schema_cex :
  (POST envC1 false reqC1).resp =
    ⟨200, RespBody.chat "" [Json.str "a", Json.str "b", Json.str "c", Json.str "d"], none⟩
  ∧ specChatResultOk (POST envC1 false reqC1).resp = false :=
  ⟨rfl, rfl⟩

/-- Claim C3: the configured chat rate limiter
(`Ratelimit.slidingWindow(10, "1 m")` in
`src/lib/upstash/rate-limit/rate-limit.ts`) rejects the 11th request of a
60-second window, not the 21st as the claim (and the code's own
"20 requests per minute" comments, and the variant module with
`slidingWindow(20, "1 m")`) state; after the window elapses the key is
admitted again, and under the variant's count of 20 the 21st request is
the first rejected. -/
theorem c3_rate_limit_code_behavior :
  swRun chatRateLimitRequests chatRateLimitWindow [] (List.replicate 11 0)
    = List.replicate 10 true ++ [false]
  ∧ swRun chatRateLimitRequests chatRateLimitWindow [] (List.replicate 10 0 ++ [30, 60])
    = List.replicate 10 true ++ [false, true]
  ∧ swRun chatRateLimitRequestsVariant chatRateLimitWindow [] (List.replicate 21 0)
    = List.replicate 20 true ++ [false] := by
  refine ⟨by decide, by decide, by decide⟩

/-- Claim C6, counterexample: in the canonical Groq route a gibberish
message (here `"!!!!!!!"`) is answered with the 400 "message not
understandable" error and no model invocation, but nothing at all is
logged — the user's message is not written to the chat log store even
though the logger is working. -/
theorem c6_gibberish_no_log_cex :
  isObviousGibberish "!!!!!!!" = true
  ∧ (POST envC6 false reqC6).resp =
      ⟨400, RespBody.fail "Message not understandable. Please rephrase.", none⟩
  ∧ (POST envC6 false reqC6).trace.modelInvoked = false
  ∧ (POST envC6 false reqC6).stored = [] :=
  ⟨rfl, rfl, rfl, rfl⟩

/-- Claim C8, counterexample: a successful, non-short-circuited turn of
the canonical Groq route appends exactly one log entry (the assistant
message), not two. -/
theorem c8_single_log_cex :
  (POST envC8 false reqC8).resp.status = 200
  ∧ (POST envC8 false reqC8).stored = [⟨"assistant", "We open at 9."⟩]
  ∧ ¬ (POST envC8 false reqC8).stored.length = 2 :=
  ⟨rfl, rfl, by decide⟩

/-- Claim C9: a failing chat logger never changes the user-facing reply:
in both routes every `logChat` call is awaited behind `.catch`, so the
response is the same whether the log write succeeds or fails. -/
theorem c9_log_failure_isolated :
  (∀ (env : ChatEnv) (req : ChatReq), (POST env true req).resp = (POST env false req).resp)
  ∧ (∀ (env : LegacyEnv) (req : ChatReq),
      (legacyPOST env true req).resp = (legacyPOST env false req).resp) :=
  ⟨fun _ _ => rfl, fun _ _ => rfl⟩

/-- Claim C10: the rate limiter runs before body validation and before
API-key authentication: with a well-formed session id and an over-limit
decision the reply is the 429 with `remaining`/`reset` headers, the
credential store is not consulted and no model runs — for every body
(including a malformed one) and every authorization header. -/
theorem c10_rate_limit_before_auth (env : ChatEnv) (lf : Bool) (req : ChatReq) (sid : String)
    (h1 : req.bot_id ≠ "") (h2 : req.sessionId = some sid)
    (h3 : validSessionId sid = true) (h4 : env.rateDecision.success = false) :
  (POST env lf req).resp =
    ⟨429, RespBody.fail "Too many requests. Please slow down.",
      some (env.rateDecision.remaining, env.rateDecision.reset)⟩
  ∧ (POST env lf req).trace.credentialChecked = false
  ∧ (POST env lf req).trace.modelInvoked = false
  ∧ (POST env lf req).stored = [] := by
  simp [POST, POSTcore, h1, h2, h3, h4]

/-- Claim C10, witness: a concrete over-limit request whose body is
malformed (`none`) and whose bearer token is invalid still gets the 429
and the key store is never consulted. -/
theorem c10_rate_limit_before_auth_witness :
  (reqC10.body = none ∧ authRejected envC10.apiKeyOwner reqC10 = true
    ∧ envC10.rateDecision.success = false)
  ∧ (POST envC10 true reqC10).resp =
      ⟨429, RespBody.fail "Too many requests. Please slow down.", some (0, 1234)⟩
  ∧ (POST envC10 true reqC10).trace.credentialChecked = false := by
  have h := c10_rate_limit_before_auth envC10 true reqC10 "sess_0001"
    (by decide) rfl (by decide) rfl
  exact ⟨⟨rfl, by decide, rfl⟩, h.1, h.2.1⟩

/-- Claim C2: when RAG retrieval yields no context and the message is
obviously out of scope, the route replies 200 with the bot's effective
fallback message (the trimmed configured text, or the generic default
when it is unset or blank) and no suggested questions, without invoking
the model and without logging. -/
theorem c2_out_of_scope_short_circuit (env : ChatEnv) (lf : Bool) (req : ChatReq)
    (b : ChatBody) (sid : String) (bot : BotProfile)
    (h1 : req.bot_id ≠ "") (h2 : req.sessionId = some sid) (h3 : validSessionId sid = true)
    (h4 : env.rateDecision.success = true) (h5 : req.body = some b)
    (h6 : authRejected env.apiKeyOwner req = false)
    (h7 : isObviousGibberish b.message = false)
    (h8 : env.bot = some bot)
    (h9 : effectiveRag env = [])
    (h10 : isObviousOutOfScope b.message = true) :
  (POST env lf req).resp = ⟨200, RespBody.chat (effectiveFallback bot) [], none⟩
  ∧ (POST env lf req).trace.modelInvoked = false
  ∧ (POST env lf req).stored = [] := by
  simp [POST, POSTcore, h1, h2, h3, h4, h5, h6, h7, h8, h9, h10]

/-- Claim C2, witness: the input `"hi"` with empty retrieval context
short-circuits to the configured fallback (trimmed) with no questions
and no model call. -/
theorem c2_out_of_scope_short_circuit_witness :
  (isObviousOutOfScope "hi" = true ∧ isObviousGibberish "hi" = false
    ∧ effectiveRag envC2 = [])
  ∧ (POST envC2 false reqC2).resp = ⟨200, RespBody.chat (effectiveFallback botC2) [], none⟩
  ∧ (POST envC2 false reqC2).trace.modelInvoked = false := by
  have h := c2_out_of_scope_short_circuit envC2 false reqC2 ⟨"hi", []⟩ "sess_0001" botC2
    (by decide) rfl (by decide) rfl rfl (by decide) (by decide) rfl rfl (by decide)
  exact ⟨⟨by decide, by decide, rfl⟩, h.1, h.2.1⟩

/-- Claim C4: when the model-invocation try block fails, an error whose
message carries the Groq JSON-validation markers ("json_validate_failed"
or "Failed to generate JSON") degrades to a 200 reply with the bot's
effective fallback message and no questions, and every other failure —
including the 50-second timeout rejection "LLM timeout" — becomes a 500
"Model invocation failed"; in neither case does the provider's error
text appear in the reply. -/
theorem c4_model_failure_policy (env : ChatEnv) (lf : Bool) (req : ChatReq)
    (b : ChatBody) (sid : String) (bot : BotProfile) (e : String)
    (h1 : req.bot_id ≠ "") (h2 : req.sessionId = some sid) (h3 : validSessionId sid = true)
    (h4 : env.rateDecision.success = true) (h5 : req.body = some b)
    (h6 : authRejected env.apiKeyOwner req = false)
    (h7 : isObviousGibberish b.message = false)
    (h8 : env.bot = some bot)
    (h9 : ((effectiveRag env).isEmpty && isObviousOutOfScope b.message) = false)
    (h10 : env.llm = Except.error e) :
  (POST env lf req).resp =
    (if containsStr e "json_validate_failed" || containsStr e "Failed to generate JSON" then
      ⟨200, RespBody.chat (effectiveFallback bot) [], none⟩
    else
      ⟨500, RespBody.fail "Model invocation failed", none⟩)
  ∧ (POST env lf req).stored = [] := by
  constructor <;>
    simp [POST, POSTcore, llmStage, Except.bind, h1, h2, h3, h4, h5, h6, h7, h8, h9, h10] <;>
    split <;> simp

/-- Claim C4, witness: losing the 50-second race rejects with
"LLM timeout", which carries no JSON-validation marker, so the turn
fails with the 500 "Model invocation failed". -/
theorem c4_model_failure_policy_witness :
  (envC4.llm = Except.error "LLM timeout"
    ∧ containsStr "LLM timeout" "json_validate_failed" = false
    ∧ containsStr "LLM timeout" "Failed to generate JSON" = false)
  ∧ (POST envC4 false reqC4).resp = ⟨500, RespBody.fail "Model invocation failed", none⟩ := by
  have h := c4_model_failure_policy envC4 false reqC4 ⟨"When do you open", []⟩ "sess_0001"
    botC4 "LLM timeout" (by decide) rfl (by decide) rfl rfl (by decide) (by decide) rfl
    (by decide) rfl
  refine ⟨⟨rfl, by decide, by decide⟩, ?_⟩
  rw [h.1]
  rfl

/-- Claim C5: retrieval is bounded and isolated: with the backend's
`limit: 3` contract the retrieved list has at most 3 elements; a missing
search client or a thrown search both yield the empty list; every chunk
folded into the prompt is truncated to at most `MAX_CONTEXT_CHARS`
(1500) characters; and a retrieval that throws produces exactly the same
outcome as one that returns no context — the chat turn is never
aborted by it. -/
theorem c5_retrieval_bounded_isolated :
  (∀ hits : List SearchHit, hits.length ≤ 3 →
    (retrieveContext (some (Except.ok hits))).length ≤ 3)
  ∧ retrieveContext none = []
  ∧ retrieveContext (some (Except.error ())) = []
  ∧ (∀ ctx : List String, ∀ s ∈ safeRag ctx, lenStr s ≤ MAX_CONTEXT_CHARS)
  ∧ (∀ (env : ChatEnv) (lf : Bool) (req : ChatReq),
      POST { env with rag := Except.error () } lf req
        = POST { env with rag := Except.ok [] } lf req) := by
  refine ⟨?_, rfl, rfl, ?_, ?_⟩
  · intro hits h
    exact le_trans (le_trans (List.length_filter_le _ _) (List.length_filterMap_le _ _)) h
  · intro ctx s hs
    simp only [safeRag, List.mem_map] at hs
    obtain ⟨c, _, rfl⟩ := hs
    by_cases h : lenStr c > MAX_CONTEXT_CHARS
    · simp only [h, if_pos]
      simp [takeStr, lenStr, List.length_take]
    · simp only [h, if_neg, ite_false]
      omega
  · intro env lf req
    rfl

/-- Claim C5, witness: a concrete three-hit backend reply (one trimmed
text, one hit without a string text, one blank text) stays within the
bound. -/
theorem c5_retrieval_bounded_isolated_witness :
  hitsC5.length ≤ 3 ∧ (retrieveContext (some (Except.ok hitsC5))).length ≤ 3 :=
  ⟨by decide, c5_retrieval_bounded_isolated.1 hitsC5 (by decide)⟩

/-- Claim C7: when the validated `answer`, trimmed, is brace-delimited
and parses as a JSON object with a string `answer` field, the final
cleanup replaces the answer by that inner answer, trimmed — verbatim,
with no second unwrapping — and an inner `suggestedQuestions` array
replaces the outer list. -/
theorem c7_nested_json_unwrap (r : LLMResult) (kvs : List (String × Json)) (a : String)
    (h1 : startsWithStr (trimStr r.answer) "\x7b" = true)
    (h2 : endsWithStr (trimStr r.answer) "\x7d" = true)
    (h3 : parseJson (trimStr r.answer) = some (Json.obj kvs))
    (h4 : Json.lookupLast kvs "answer" = some (Json.str a)) :
  (finalCleanup r).answer = trimStr a
  ∧ (∀ xs, Json.lookupLast kvs "suggestedQuestions" = some (Json.arr xs) →
      (finalCleanup r).suggestedQuestions = xs) := by
  constructor
  · simp [finalCleanup, h1, h2, h3, h4]
  · intro xs hxs
    simp [finalCleanup, h1, h2, h3, h4, hxs]

/-- Claim C7, witness: Scenario E — the double-encoded answer
`{"answer":"X","suggestedQuestions":[]}` unwraps one level to the final
answer `"X"` with the empty inner question list. -/
theorem c7_nested_json_unwrap_witness :
  parseJson (trimStr rC7.answer) = some (Json.obj kvsC7)
  ∧ (finalCleanup rC7).answer = trimStr "X"
  ∧ (finalCleanup rC7).suggestedQuestions = [] := by
  have h := c7_nested_json_unwrap rC7 kvsC7 "X" (by decide) (by decide) rfl rfl
  exact ⟨rfl, h.1, h.2 [] rfl⟩

/-- Claim C1, amended: `LLMResponseSchema` guarantees that at validation
time `suggestedQuestions` has at most 3 elements each ending in `?`
(`answer` is only required to be a string and may be empty), and those
bounds carry over to the final reply whenever the nested-JSON cleanup
leaves `suggestedQuestions` unchanged; the cleanup path itself may
replace them by an arbitrary un-revalidated inner array. -/
theorem c1_validation_bounds_amended (j : Json) (r : LLMResult)
    (h : zodValidate j = some r) :
  (r.suggestedQuestions.length ≤ 3
    ∧ r.suggestedQuestions.all (fun q => endsWithStr q "?") = true)
  ∧ ((finalCleanup r).suggestedQuestions = r.suggestedQuestions.map Json.str →
      ((finalCleanup r).suggestedQuestions.length ≤ 3
        ∧ (finalCleanup r).suggestedQuestions.all
            (fun x => match x with | Json.str s => endsWithStr s "?" | _ => false) = true)) := by
  have hb : r.suggestedQuestions.all (fun q => endsWithStr q "?") = true
      ∧ r.suggestedQuestions.length ≤ 3 := by
    cases j with
    | null => exact absurd h (by simp [zodValidate])
    | bool b => exact absurd h (by simp [zodValidate])
    | num n => exact absurd h (by simp [zodValidate])
    | str s => exact absurd h (by simp [zodValidate])
    | arr xs => exact absurd h (by simp [zodValidate])
    | obj kvs =>
      simp only [zodValidate] at h
      split at h
      next a qs heqa heqq =>
        cases hss : strListOf qs with
        | none => simp only [hss] at h; exact absurd h (by simp)
        | some ss =>
          simp only [hss] at h
          split at h
          next hcond =>
            injection h with h2
            subst h2
            exact hcond
          next => exact absurd h (by simp)
      next => exact absurd h (by simp)
  refine ⟨⟨hb.2, hb.1⟩, ?_⟩
  intro hkeep
  rw [hkeep]
  refine ⟨by simpa using hb.2, ?_⟩
  rw [List.all_eq_true]
  intro x hx
  rw [List.mem_map] at hx
  obtain ⟨s, hs, rfl⟩ := hx
  simpa using (List.all_eq_true.mp hb.1) s hs

/-- Claim C1, witness for the amended theorem: a concrete validated
record satisfies the bounds and keeps them through the cleanup. -/
theorem c1_validation_bounds_amended_witness :
  zodValidate jC1w = some rC1w
  ∧ (rC1w.suggestedQuestions.length ≤ 3
    ∧ rC1w.suggestedQuestions.all (fun q => endsWithStr q "?") = true) := by
  have h := c1_validation_bounds_amended jC1w rC1w rfl
  exact ⟨rfl, h.1⟩

/-- Claim C6, amended: in the canonical Groq route a gibberish message is
answered with the 400 "message not understandable" error, no model runs
and nothing is logged; in the legacy route the user's message is written
to the chat log (best-effort) before the same 400, also without a model
invocation. -/
theorem c6_gibberish_amended :
  (∀ (env : ChatEnv) (lf : Bool) (req : ChatReq) (b : ChatBody) (sid : String),
    req.bot_id ≠ "" → req.sessionId = some sid → validSessionId sid = true →
    env.rateDecision.success = true → req.body = some b →
    authRejected env.apiKeyOwner req = false →
    isObviousGibberish b.message = true →
    (POST env lf req).resp =
        ⟨400, RespBody.fail "Message not understandable. Please rephrase.", none⟩
      ∧ (POST env lf req).trace.modelInvoked = false
      ∧ (POST env lf req).stored = [])
  ∧ (∀ (env : LegacyEnv) (req : ChatReq) (b : ChatBody) (sid : String),
    req.bot_id ≠ "" → req.sessionId = some sid → req.body = some b →
    authRejected env.apiKeyOwner req = false →
    isObviousGibberish b.message = true →
    (legacyPOST env false req).resp =
        ⟨400, LegacyBody.fail "Message not understandable. Please rephrase."⟩
      ∧ (legacyPOST env false req).modelInvoked = false
      ∧ (legacyPOST env false req).stored = [⟨"user", Json.str b.message⟩]) := by
  constructor
  · intro env lf req b sid h1 h2 h3 h4 h5 h6 h7
    simp [POST, POSTcore, h1, h2, h3, h4, h5, h6, h7]
  · intro env req b sid h1 h2 h3 h4 h5
    simp [legacyPOST, legacyPOSTcore, h1, h2, h3, h4, h5]

/-- Claim C6, witness for the amended theorem: the gibberish message
`"!!!!!!!"` exercises both branches — no log entry in the Groq route,
one user entry in the legacy route. -/
theorem c6_gibberish_amended_witness :
  (isObviousGibberish "!!!!!!!" = true)
  ∧ (legacyPOST lenvC6 false reqC6).stored = [⟨"user", Json.str "!!!!!!!"⟩]
  ∧ (legacyPOST lenvC6 false reqC6).modelInvoked = false := by
  have h := c6_gibberish_amended.2 lenvC6 reqC6 ⟨"!!!!!!!", []⟩ "sess_0001"
    (by decide) rfl rfl (by decide) (by decide)
  exact ⟨by decide, h.2.2, h.2.1⟩

/-- Claim C8, amended: per successful, non-short-circuited turn the
canonical Groq route appends exactly one log entry — the assistant
message — while the legacy route appends exactly two, the user message
first and the assistant message second. -/
theorem c8_log_entries_amended :
  (∀ (env : ChatEnv) (req : ChatReq) (b : ChatBody) (sid : String) (bot : BotProfile)
      (r : LLMResult),
    req.bot_id ≠ "" → req.sessionId = some sid → validSessionId sid = true →
    env.rateDecision.success = true → req.body = some b →
    authRejected env.apiKeyOwner req = false →
    isObviousGibberish b.message = false →
    env.bot = some bot →
    ((effectiveRag env).isEmpty && isObviousOutOfScope b.message) = false →
    llmStage env.llm = Except.ok r →
    (POST env false req).resp.status = 200
      ∧ (POST env false req).stored = [⟨"assistant", (finalCleanup r).answer⟩])
  ∧ (∀ (env : LegacyEnv) (req : ChatReq) (b : ChatBody) (sid : String) (bot : BotProfile),
    req.bot_id ≠ "" → req.sessionId = some sid → req.body = some b →
    authRejected env.apiKeyOwner req = false →
    isObviousGibberish b.message = false →
    env.bot = some bot →
    (legacyPOST env false req).resp.status = 200
      ∧ (legacyPOST env false req).stored =
          [⟨"user", Json.str b.message⟩, ⟨"assistant", (legacyResult env.chain).answer⟩]) := by
  constructor
  · intro env req b sid bot r h1 h2 h3 h4 h5 h6 h7 h8 h9 h10
    simp [POST, POSTcore, h1, h2, h3, h4, h5, h6, h7, h8, h9, h10]
  · intro env req b sid bot h1 h2 h3 h4 h5 h6
    simp [legacyPOST, legacyPOSTcore, h1, h2, h3, h4, h5, h6]

/-- Claim C8, witness for the amended theorem: a concrete successful
turn of each route — one assistant entry in the Groq route, user then
assistant in the legacy route. -/
theorem c8_log_entries_amended_witness :
  (llmStage envC8.llm = Except.ok ⟨"We open at 9.", ["More info?"]⟩)
  ∧ (POST envC8 false reqC8).stored =
      [⟨"assistant", (finalCleanup ⟨"We open at 9.", ["More info?"]⟩).answer⟩]
  ∧ (legacyPOST lenvC8 false reqC8).stored =
      [⟨"user", Json.str "When do you open"⟩,
       ⟨"assistant", (legacyResult lenvC8.chain).answer⟩] := by
  have hg := (c8_log_entries_amended.1 envC8 reqC8 ⟨"When do you open", []⟩ "sess_0001"
    ⟨⟨none⟩⟩ ⟨"We open at 9.", ["More info?"]⟩
    (by decide) rfl (by decide) rfl rfl (by decide) (by decide) rfl (by decide) rfl)
  have hl := (c8_log_entries_amended.2 lenvC8 reqC8 ⟨"When do you open", []⟩ "sess_0001"
    botC2 (by decide) rfl rfl (by decide) (by decide) rfl)
  exact ⟨rfl, hg.2, hl.2⟩
